import Mathlib

/-!
Shallow embedding of `adventurelib.py` (repository edmw/adventurelib):
the command grammar compiler (`_register`), the dispatcher loop body of
`start`, the location graph (`Room.add_direction`, `Room.__setattr__`,
`Room.exit`), and the `Bag`/`Item` container.

Python machine model used throughout:
  * object identity is modelled by a natural-number id on mutable objects
    (`Item.id`, rooms are plain ids with their attributes held in a `World`);
  * Python exceptions are modelled by `Except PyErr`;
  * Python dicts keyed by strings are association lists with
    first-match lookup and in-place update.
-/

/-- Python `str.isalpha` on the ASCII words used in command strings:
nonempty and every character alphabetic. -/
def pyIsAlpha (w : String) : Bool :=
  w.length > 0 && w.toList.all (fun c => c.isAlpha)

/-- Python `str.isupper`: at least one cased character and no lowercase
character (ASCII model). -/
def pyIsUpper (w : String) : Bool :=
  w.toList.any (fun c => c.isUpper || c.isLower) &&
  w.toList.all (fun c => !c.isLower)

/-- Python `str.islower`: at least one cased character and no uppercase
character (ASCII model). -/
def pyIsLower (w : String) : Bool :=
  w.toList.any (fun c => c.isUpper || c.isLower) &&
  w.toList.all (fun c => !c.isUpper)

/-- Python `str.lower` (ASCII model). -/
def pyLower (s : String) : String := String.mk (s.toList.map Char.toLower)

/-- Word accumulator for `str.split()`: collect maximal runs of
non-whitespace characters. -/
def wordsAux : List Char → List Char → List String
  | [], acc => if acc = [] then [] else [String.mk acc.reverse]
  | c :: rest, acc =>
    if c.isWhitespace then
      if acc = [] then wordsAux rest []
      else String.mk acc.reverse :: wordsAux rest []
    else wordsAux rest (c :: acc)

/-- Python `str.split()` with no argument: split on whitespace runs,
dropping empty fields. -/
def pySplit (s : String) : List String := wordsAux s.toList []

/-- A compiled token of a command pattern: a literal word or a
`Placeholder` (adventurelib.py line 26). -/
inductive Token where
  | lit (word : String)
  | placeholder (name : String)
deriving DecidableEq, Repr

/-- The Python values that occur as fixed keyword arguments and captured
words in this program: strings and `None`. -/
inductive PyValue where
  | str (s : String)
  | pyNone
deriving DecidableEq, Repr

/-- The Python exceptions this embedding distinguishes.  `nameError n` is
the `NameError` raised when an undefined global name `n` is evaluated;
`typeError` is raised on a miscalled builtin; `invalidCommand` is the
`InvalidCommand` class defined at adventurelib.py line 22; `keyError` is
Python's `KeyError`. -/
inductive PyErr where
  | nameError (name : String)
  | typeError (msg : String)
  | invalidCommand
  | keyError
deriving DecidableEq, Repr

/-- Embedding of `itertools.zip_longest` with `fillvalue=None`, as used by the dispatch
loop of `start` (adventurelib.py line 241). -/
def zipLongest {α β : Type} : List α → List β → List (Option α × Option β)
  | [], bs => bs.map (fun b => (none, some b))
  | a :: as, [] => (some a, none) :: zipLongest as []
  | a :: as, b :: bs => (some a, some b) :: zipLongest as bs

/-- An argument dict (`kwargs.copy()` then `args[name] = word`):
an association list with Python-dict update semantics (overwrite in place
if the key exists, append otherwise). -/
def setKey (args : List (String × PyValue)) (k : String) (v : PyValue) :
    List (String × PyValue) :=
  if args.any (fun p => p.1 = k) then
    args.map (fun p => if p.1 = k then (k, v) else p)
  else args ++ [(k, v)]

/-- The inner alignment loop of `start` (adventurelib.py lines 241-247):
walk the `zip_longest` pairing of pattern tokens and input words.
`if word is None: break` abandons the candidate (pattern longer than
input); a `Placeholder` captures the aligned word; a literal `cword` that
differs from `word` abandons the candidate — in particular when the
pattern is exhausted (`cword` is `None`) but input words remain,
`None != word` holds and the candidate is abandoned. -/
def alignLoop : List (Option Token × Option String) → List (String × PyValue) →
    Option (List (String × PyValue))
  | [], args => some args
  | (c, w) :: rest, args =>
    match w with
    | none => none
    | some word =>
      match c with
      | some (Token.placeholder n) => alignLoop rest (setKey args n (PyValue.str word))
      | some (Token.lit l) => if l = word then alignLoop rest args else none
      | none => none

/-- One entry of the global `commands` registry: the compiled pattern
tuple, the handler (identified by its name), and the fixed keyword
arguments (adventurelib.py line 193). -/
structure Cmd where
  pat : List Token
  func : String
  kwargs : List (String × PyValue)
deriving DecidableEq, Repr

/-- Try one registered command against the tokenized input words:
`args = kwargs.copy()` followed by the alignment loop. Returns the
argument dict the handler would be called with, or `none` when the
candidate is abandoned. -/
def matchCmd (c : Cmd) (ws : List String) : Option (List (String × PyValue)) :=
  alignLoop (zipLongest c.pat ws) c.kwargs

/-- The dispatch scan of `start` (adventurelib.py lines 239-252): walk the
registry in insertion order and invoke the first matching handler
(`func(**args)` then `break`); `none` models the `no_command_matches`
fallback. The result records which handler is invoked and with which
arguments. -/
def dispatch : List Cmd → List String → Option (String × List (String × PyValue))
  | [], _ => none
  | c :: rest, ws =>
    match matchCmd c ws with
    | some args => some (c.func, args)
    | none => dispatch rest ws

/-- Input normalization of `start` (line 238): `cmd.lower().split()`. -/
def tokenizeInput (cmd : String) : List String := pySplit (pyLower cmd)

/-- The word classification of `_register` (adventurelib.py lines 162-179):
non-alphabetic words raise `InvalidCommand`; an all-uppercase word becomes
a `Placeholder` named by its lowercasing; an all-lowercase word is a
literal; mixed case raises `InvalidCommand`. -/
def classifyWord (w : String) : Except PyErr Token :=
  if !pyIsAlpha w then Except.error PyErr.invalidCommand
  else if pyIsUpper w then Except.ok (Token.placeholder (pyLower w))
  else if pyIsLower w then Except.ok (Token.lit w)
  else Except.error PyErr.invalidCommand

/-- The compilation loop of `_register`: `command.split()` classified word
by word, aborting at the first invalid word. -/
def parseCommand (command : String) : Except PyErr (List Token) :=
  (pySplit command).mapM classifyWord

/-- The `argnames` list collected by `_register`: the placeholder names in
pattern order. -/
def placeholderNames (ts : List Token) : List String :=
  ts.filterMap (fun t =>
    match t with
    | Token.placeholder n => some n
    | Token.lit _ => none)

/-- A Python handler function as seen by `inspect.signature`: its name and
its declared parameter names. -/
structure Handler where
  name : String
  params : List String
deriving DecidableEq, Repr

/-- Python set equality of two string lists (`set(a) == set(b)`). -/
def sameStrSet (a b : List String) : Bool :=
  a.all (fun x => b.contains x) && b.all (fun x => a.contains x)

/-- Embedding of `_register` (adventurelib.py lines 157-193): compile the command
string, check `set(sig.parameters) == set(argnames) | set(kwargs)`, and on
success produce the registry entry that is appended to `commands`. -/
def _register (command : String) (func : Handler) (kwargs : List (String × PyValue)) :
    Except PyErr Cmd := do
  let toks ← parseCommand command
  if sameStrSet func.params (placeholderNames toks ++ kwargs.map Prod.fst) then
    Except.ok ⟨toks, func.name, kwargs⟩
  else Except.error PyErr.invalidCommand

/-- The mutable world of rooms: the class-level `Room._directions` dict and
every room's direction attributes (`None`-defaulted by `add_direction`).
Rooms are identified by numeric object ids. -/
structure World where
  directions : List (String × String)
  exits : Nat → String → Option Nat

/-- Python dict lookup in `Room._directions`. -/
def lookupDir : List (String × String) → String → Option String
  | [], _ => none
  | (k, v) :: rest, d => if k = d then some v else lookupDir rest d

/-- Embedding of `Room.add_direction` (lines 40-55): both names must be all-lowercase
(`InvalidCommand` otherwise) and fresh (`KeyError` otherwise), then the
direction dict gains the pair in both orientations. The `None` class
defaults of lines 54-55 are the `none` default of `World.exits`. -/
def add_direction (w : World) (forward reverse : String) : Except PyErr World :=
  if !pyIsLower forward then Except.error PyErr.invalidCommand
  else if (lookupDir w.directions forward).isSome then Except.error PyErr.keyError
  else if !pyIsLower reverse then Except.error PyErr.invalidCommand
  else if (lookupDir w.directions reverse).isSome then Except.error PyErr.keyError
  else Except.ok ⟨w.directions ++ [(forward, reverse), (reverse, forward)], w.exits⟩

/-- One `object.__setattr__(room, dir, value)` on a direction slot. -/
def setRoomAttr (e : Nat → String → Option Nat) (r : Nat) (d : String) (v : Nat) :
    Nat → String → Option Nat :=
  fun r2 d2 => if r2 = r && d2 = d then some v else e r2 d2

/-- Embedding of `Room.__setattr__` with a `Room`-valued assignment (lines 82-92), i.e.
the spec's `set_exit`.  When `name` is not a declared direction, line 85
evaluates the global name `InvalidDirection`, which is defined nowhere in
the module, so Python raises `NameError` before mutating anything.
Otherwise the forward slot and then the reverse slot of the target are
written. -/
def setExit (w : World) (room : Nat) (name : String) (value : Nat) : Except PyErr World :=
  match lookupDir w.directions name with
  | none => Except.error (PyErr.nameError "InvalidDirection")
  | some reverse =>
      Except.ok ⟨w.directions,
        setRoomAttr (setRoomAttr w.exits room name value) value reverse room⟩

/-- Embedding of `Room.exit` (lines 68-76), the spec's `get_exit`: `KeyError` on an
undeclared direction, otherwise the stored neighbour or `none`. -/
def roomExit (w : World) (room : Nat) (direction : String) : Except PyErr (Option Nat) :=
  if (lookupDir w.directions direction).isNone then Except.error PyErr.keyError
  else Except.ok (w.exits room direction)

/-- The module-level state after `Room.add_direction('north', 'south')` and
`Room.add_direction('east', 'west')` (lines 96-97). -/
def initialWorld : World :=
  ⟨[("north", "south"), ("south", "north"), ("east", "west"), ("west", "east")],
   fun _ _ => none⟩

/-- An `Item` (lines 100-105): an object identity plus the stored name and
alias tuple. -/
structure Item where
  id : Nat
  name : String
  aliases : List String
deriving DecidableEq, Repr

/-- Embedding of `Item.__init__`: `self.aliases = (name,) + aliases`, stored verbatim. -/
def mkItem (id : Nat) (name : String) (aliases : List String) : Item :=
  ⟨id, name, name :: aliases⟩

/-- A `Bag` is a Python set of `Item`s; identity equality of items is
structural equality here because distinct objects carry distinct ids. -/
def bagFind (b : List Item) (name : String) : Option Item :=
  b.find? (fun item => decide (name ∈ item.aliases))

/-- The argument of `Bag.__contains__`: a string or an `Item` reference. -/
inductive BagQuery where
  | str (s : String)
  | item (it : Item)

/-- Embedding of `Bag.__contains__` (lines 131-141).  The string branch is
`bool(self._find(v))`.  The non-string branch executes
`set.__contains__(v)`: the unbound descriptor is called with the `Item` in
place of the `set` receiver and no element argument, so Python raises
`TypeError` instead of testing membership. -/
def bagContains (b : List Item) (v : BagQuery) : Except PyErr Bool :=
  match v with
  | BagQuery.str s => Except.ok (bagFind b s).isSome
  | BagQuery.item _ =>
      Except.error (PyErr.typeError "set.__contains__ called without the set receiver")

/-- Embedding of `Bag.take` (lines 143-154): `_find` then `remove` the found item. -/
def bagTake (b : List Item) (name : String) : Option Item × List Item :=
  match bagFind b name with
  | some obj => (some obj, b.erase obj)
  | none => (none, b)

/-- Embedding of `copy.deepcopy` on a `Bag`, as performed by `Room.__init__`
(line 63): every contained `Item` is recursively copied, so each member of
the copy is a fresh object identity carrying the same field values.
`fresh` is the first unused object id; copies receive ids
`fresh, fresh+1, ...`. -/
def deepcopyBag : Nat → List Item → List Item
  | _, [] => []
  | fresh, it :: rest => ⟨fresh, it.name, it.aliases⟩ :: deepcopyBag (fresh + 1) rest

/-- Modelled from the spec: the default value of the process-wide Context.
The Context implementation (`get_context`/`set_context` and the reserved
`context` keyword of `when`) is imported by `adventurelib_rich.py` and used
by `demo_game_rich.py` but is missing from the sources; the demo resets the
context with `set_context("default")`. -/
def defaultContext : String := "default"

/-- Removal of the reserved key from the argument dict handed to the
handler. -/
def removeKey (args : List (String × PyValue)) (k : String) : List (String × PyValue) :=
  args.filter (fun p => p.1 ≠ k)

/-- Modelled from the spec: a candidate carrying the reserved fixed keyword
`context` is eligible only when the current Context equals the filter
value, and the filter is not passed to the handler; candidates without the
filter are eligible in every context.  Composed with the `start` matcher. -/
def matchCmdCtx (ctx : String) (c : Cmd) (ws : List String) :
    Option (List (String × PyValue)) :=
  match c.kwargs.lookup "context" with
  | some v =>
      if v = PyValue.str ctx then
        matchCmd ⟨c.pat, c.func, removeKey c.kwargs "context"⟩ ws
      else none
  | none => matchCmd c ws

/-- Modelled from the spec: the dispatch scan with context filtering. -/
def dispatchCtx (ctx : String) :
    List Cmd → List String → Option (String × List (String × PyValue))
  | [], _ => none
  | c :: rest, ws =>
    match matchCmdCtx ctx c ws with
    | some args => some (c.func, args)
    | none => dispatchCtx ctx rest ws

/-- The world before any direction is declared (an empty `Room._directions`
dict and no exits set anywhere). -/
def emptyWorld : World := ⟨[], fun _ _ => none⟩

/-- The registry entry declared by `demo_game_rich.py` line 81:
`@when("cast", context="magic_aura", magic=None)`. -/
def castCmd : Cmd :=
  ⟨[Token.lit "cast"], "cast",
   [("context", PyValue.str "magic_aura"), ("magic", PyValue.pyNone)]⟩

/-- Helper: a candidate of the `start` loop matches only when the pattern
token count equals the input word count — the `zip_longest` pairing aborts
both on a missing input word and on a leftover input word. -/
theorem alignLoop_length (pat : List Token) :
    ∀ (ws : List String) (args args2 : List (String × PyValue)),
      alignLoop (zipLongest pat ws) args = some args2 → pat.length = ws.length := by
  induction pat with
  | nil =>
    intro ws args args2 h
    cases ws with
    | nil => rfl
    | cons w ws2 => simp [zipLongest, alignLoop] at h
  | cons t pat2 ih =>
    intro ws args args2 h
    cases ws with
    | nil => simp [zipLongest, alignLoop] at h
    | cons w ws2 =>
      cases t with
      | placeholder n =>
        simp only [zipLongest, alignLoop] at h
        have := ih ws2 _ _ h
        simp [List.length_cons, this]
      | lit l =>
        simp only [zipLongest, alignLoop] at h
        by_cases hl : l = w
        · rw [if_pos hl] at h
          have := ih ws2 _ _ h
          simp [List.length_cons, this]
        · rw [if_neg hl] at h
          exact absurd h (by simp)

/-- Helper: `lookupDir` skips a prefix of the dict in which the key does
not occur. -/
theorem lookupDir_append_of_none (l1 l2 : List (String × String)) (d : String)
    (h : lookupDir l1 d = none) : lookupDir (l1 ++ l2) d = lookupDir l2 d := by
  induction l1 with
  | nil => rfl
  | cons p rest ih =>
    obtain ⟨k, v⟩ := p
    simp only [lookupDir] at h
    simp only [List.cons_append, lookupDir]
    by_cases hk : k = d
    · rw [if_pos hk] at h
      exact absurd h (by simp)
    · rw [if_neg hk] at h
      rw [if_neg hk]
      exact ih h

/-- Helper: what a successful `Room.add_direction` call guarantees. -/
theorem add_direction_ok (w : World) (a b : String) (w1 : World)
    (h : add_direction w a b = Except.ok w1) :
    lookupDir w.directions a = none ∧ lookupDir w.directions b = none ∧
    w1.directions = w.directions ++ [(a, b), (b, a)] ∧ w1.exits = w.exits := by
  unfold add_direction at h
  by_cases h1 : (!pyIsLower a) = true
  · rw [if_pos h1] at h
    exact absurd h (by simp)
  rw [if_neg h1] at h
  by_cases h2 : (lookupDir w.directions a).isSome = true
  · rw [if_pos h2] at h
    exact absurd h (by simp)
  rw [if_neg h2] at h
  by_cases h3 : (!pyIsLower b) = true
  · rw [if_pos h3] at h
    exact absurd h (by simp)
  rw [if_neg h3] at h
  by_cases h4 : (lookupDir w.directions b).isSome = true
  · rw [if_pos h4] at h
    exact absurd h (by simp)
  rw [if_neg h4] at h
  injection h with h
  subst h
  exact ⟨Option.not_isSome_iff_eq_none.mp h2, Option.not_isSome_iff_eq_none.mp h4, rfl, rfl⟩

/-- Helper: what a successful `Room.__setattr__` edge assignment does. -/
theorem setExit_ok (w : World) (room : Nat) (d : String) (target : Nat) (w2 : World)
    (h : setExit w room d target = Except.ok w2) :
    ∃ rev, lookupDir w.directions d = some rev ∧
      w2.directions = w.directions ∧
      w2.exits = setRoomAttr (setRoomAttr w.exits room d target) target rev room := by
  unfold setExit at h
  cases hl : lookupDir w.directions d with
  | none =>
    rw [hl] at h
    exact absurd h (by simp)
  | some rev =>
    rw [hl] at h
    injection h with h
    subst h
    exact ⟨rev, rfl, rfl, rfl⟩

/-- Helper: Python set equality of string lists agrees with `Finset`
equality of their elements. -/
theorem sameStrSet_iff (a b : List String) :
    sameStrSet a b = true ↔ a.toFinset = b.toFinset := by
  simp only [sameStrSet, Bool.and_eq_true, List.all_eq_true, Finset.ext_iff,
    List.mem_toFinset, List.contains, List.elem_iff]
  constructor
  · rintro ⟨h1, h2⟩ x
    exact ⟨h1 x, h2 x⟩
  · intro h
    exact ⟨fun x hx => (h x).mp hx, fun x hx => (h x).mpr hx⟩

/-- Helper: once the command string compiles, `_register` succeeds exactly
when the Python set-equality check passes. -/
theorem register_ok_iff (command : String) (func : Handler)
    (kwargs : List (String × PyValue)) (toks : List Token)
    (hp : parseCommand command = Except.ok toks) :
    (_register command func kwargs).isOk = true ↔
      sameStrSet func.params (placeholderNames toks ++ kwargs.map Prod.fst) = true := by
  unfold _register
  rw [hp]
  show (if sameStrSet func.params (placeholderNames toks ++ kwargs.map Prod.fst) then
      Except.ok (⟨toks, func.name, kwargs⟩ : Cmd)
    else Except.error PyErr.invalidCommand).isOk = true ↔ _
  by_cases hs : sameStrSet func.params (placeholderNames toks ++ kwargs.map Prod.fst) = true
  · rw [if_pos hs]
    exact iff_of_true rfl hs
  · rw [if_neg (by simpa using hs)]
    exact iff_of_false (by simp [Except.isOk, Except.toBool]) hs

/-- Helper: `Bag._find` succeeds exactly when some contained item lists the
queried string among its aliases, by exact string equality. -/
theorem bagFind_isSome (b : List Item) (s : String) :
    (bagFind b s).isSome = true ↔ ∃ it ∈ b, s ∈ it.aliases := by
  simp [bagFind, List.find?_isSome]

/-- C1, counterexample: the claim that extra trailing input words are
tolerated, and that with the placeholder pattern registered first the
input "take rusty mallet" invokes the placeholder handler with
item="rusty", is false.  The candidate `take ITEM` fails on the three-word
input (the leftover word "mallet" aborts the alignment), so the
three-literal pattern wins even when registered second. -/
theorem C1_trailing_words_cex :
    matchCmd ⟨[Token.lit "take", Token.placeholder "item"], "take_handler", []⟩
        (tokenizeInput "take rusty mallet") = none ∧
    dispatch
        [⟨[Token.lit "take", Token.placeholder "item"], "take_handler", []⟩,
         ⟨[Token.lit "take", Token.lit "rusty", Token.lit "mallet"], "specific_handler", []⟩]
        (tokenizeInput "take rusty mallet") =
      some ("specific_handler", []) := by
  exact ⟨by decide, by decide⟩

/-- C1, amended: a pattern matches an input line only when its token count
exactly equals the input word count — a pattern strictly longer than the
input never matches, and extra trailing input words are NOT tolerated
either.  In the scenario, input "take rusty mallet" invokes the specific
handler regardless of registration order, while `take ITEM` with
item="rusty" matches only the two-word input "take rusty". -/
theorem C1_exact_length_alignment :
    (∀ (c : Cmd) (ws : List String) (args : List (String × PyValue)),
        matchCmd c ws = some args → c.pat.length = ws.length) ∧
    dispatch
        [⟨[Token.lit "take", Token.lit "rusty", Token.lit "mallet"], "specific_handler", []⟩,
         ⟨[Token.lit "take", Token.placeholder "item"], "take_handler", []⟩]
        (tokenizeInput "take rusty mallet") = some ("specific_handler", []) ∧
    matchCmd ⟨[Token.lit "take", Token.placeholder "item"], "take_handler", []⟩
        (tokenizeInput "take rusty") = some [("item", PyValue.str "rusty")] := by
  exact ⟨fun c ws args h => alignLoop_length c.pat ws c.kwargs args h, by decide, by decide⟩

/-- C1, witness: the exact-length fact applied to the one-token pattern
`go` matching the one-word input "go". -/
theorem C1_exact_length_alignment_witness :
    ([Token.lit "go"] : List Token).length = (["go"] : List String).length :=
  C1_exact_length_alignment.1 ⟨[Token.lit "go"], "go", []⟩ ["go"] [] (by decide)

/-- C2, counterexample: the reciprocity invariant does not hold after every
single edge assignment.  Starting from the built-in directions, assign
room 0 north to room 1 and then room 2 north to room 1: afterwards room 0
still has north exit room 1, but room 1's south exit is room 2, not
room 0. -/
theorem C2_reciprocity_cex :
    ((setExit initialWorld 0 "north" 1).bind fun w => setExit w 2 "north" 1).map
        (fun w => (roomExit w 0 "north", roomExit w 1 "south")) =
      Except.ok (Except.ok (some 1), Except.ok (some 2)) := by
  rfl

/-- C2, amended: reciprocity holds for the pair touched by the assignment —
immediately after a successful `room.d = target` the forward slot holds
`target` and the target's reverse slot holds `room`, and no other exit
slot changes.  The global invariant over all rooms can still break,
because re-assigning an edge target from another room leaves the old
forward edge in place (see the counterexample). -/
theorem C2_assigned_pair_reciprocity (w : World) (room : Nat) (d : String)
    (target : Nat) (w0 : World) (rev : String)
    (hrev : lookupDir w.directions d = some rev)
    (h : setExit w room d target = Except.ok w0) :
    w0.exits target rev = some room ∧ w0.exits room d = some target ∧
    (∀ r e, ¬(r = room ∧ e = d) → ¬(r = target ∧ e = rev) →
      w0.exits r e = w.exits r e) := by
  obtain ⟨rev2, hrev2, _, hexits⟩ := setExit_ok w room d target w0 h
  rw [hrev] at hrev2
  injection hrev2 with hrev2
  subst hrev2
  rw [hexits]
  refine ⟨by simp [setRoomAttr], ?_, ?_⟩
  · by_cases hme : room = target ∧ d = rev
    · obtain ⟨h1, h2⟩ := hme
      subst h1
      subst h2
      simp [setRoomAttr]
    · simp only [setRoomAttr]
      rw [if_neg (by simpa using fun h1 h2 => hme ⟨h1, h2⟩)]
      simp
  · intro r e h1 h2
    simp only [setRoomAttr]
    rw [if_neg (by simpa using fun a b => h2 ⟨a, b⟩),
        if_neg (by simpa using fun a b => h1 ⟨a, b⟩)]

/-- C2, witness: the amended theorem applied to assigning room 0's north
exit to room 1 in the initial world; the reverse slot of room 1 holds
room 0. -/
theorem C2_assigned_pair_reciprocity_witness :
    (⟨initialWorld.directions,
      setRoomAttr (setRoomAttr initialWorld.exits 0 "north" 1) 1 "south" 0⟩ : World).exits
        1 "south" = some 0 :=
  (C2_assigned_pair_reciprocity initialWorld 0 "north" 1
    ⟨initialWorld.directions,
     setRoomAttr (setRoomAttr initialWorld.exits 0 "north" 1) 1 "south" 0⟩ "south" rfl rfl).1

/-- C3 (modelled from the spec, the Context implementation being absent
from the sources): a candidate carrying the reserved `context` fixed
keyword matches only when the process-wide Context equals the filter
value, in which case it behaves as the same command with the filter
removed from the handler arguments; candidates without the filter are
eligible in every context.  Scenario: the demo's
`@when("cast", context="magic_aura", magic=None)` command does not match
while the Context is at its default value and does match after the
Context is switched to "magic_aura", with `context` not passed to the
handler. -/
theorem C3_context_filtering :
    (∀ (ctx : String) (c : Cmd) (ws : List String) (f : String),
        c.kwargs.lookup "context" = some (PyValue.str f) →
        ((matchCmdCtx ctx c ws).isSome = true → ctx = f) ∧
        (ctx = f → matchCmdCtx ctx c ws =
          matchCmd ⟨c.pat, c.func, removeKey c.kwargs "context"⟩ ws)) ∧
    (∀ (ctx : String) (c : Cmd) (ws : List String),
        c.kwargs.lookup "context" = none → matchCmdCtx ctx c ws = matchCmd c ws) ∧
    dispatchCtx defaultContext [castCmd] ["cast"] = none ∧
    dispatchCtx "magic_aura" [castCmd] ["cast"] =
      some ("cast", [("magic", PyValue.pyNone)]) := by
  refine ⟨?_, ?_, by decide, by decide⟩
  · intro ctx c ws f hl
    unfold matchCmdCtx
    rw [hl]
    dsimp only
    constructor
    · intro hsome
      by_cases hf : PyValue.str f = PyValue.str ctx
      · injection hf with hf
        exact hf.symm
      · rw [if_neg hf] at hsome
        simp at hsome
    · intro hcf
      subst hcf
      rw [if_pos rfl]
  · intro ctx c ws hl
    unfold matchCmdCtx
    rw [hl]

/-- C3, witness: with the Context switched to "magic_aura" the demo's
`cast` candidate behaves as the unfiltered command. -/
theorem C3_context_filtering_witness :
    matchCmdCtx "magic_aura" castCmd ["cast"] =
      matchCmd ⟨castCmd.pat, castCmd.func, removeKey castCmd.kwargs "context"⟩ ["cast"] :=
  (C3_context_filtering.1 "magic_aura" castCmd ["cast"] "magic_aura" rfl).2 rfl

/-- C4 (code bug): membership testing of an `Item` reference never returns
a boolean at all.  The non-string branch of `Bag.__contains__` executes
`set.__contains__(v)`, passing the `Item` where the `set` receiver belongs,
so Python raises `TypeError` — including when the queried `Item` is a
member of the bag, where the claim and the method's own docstring promise
`True`. -/
theorem C4_contains_identity_type_error :
    (∀ (b : List Item) (it : Item),
        bagContains b (BagQuery.item it) =
          Except.error (PyErr.typeError "set.__contains__ called without the set receiver")) ∧
    bagContains [mkItem 0 "mallet" ["rusty mallet"]]
        (BagQuery.item (mkItem 0 "mallet" ["rusty mallet"])) =
      Except.error (PyErr.typeError "set.__contains__ called without the set receiver") := by
  exact ⟨fun b it => rfl, rfl⟩

/-- C5: for a command string that compiles, registration succeeds exactly
when the set of placeholder names unioned with the fixed-keyword names
equals the handler's declared parameter-name set; any mismatch is an error
raised by `_register` itself, at declaration time, before any dispatch. -/
theorem C5_signature_set_equality (command : String) (func : Handler)
    (kwargs : List (String × PyValue)) (toks : List Token)
    (hp : parseCommand command = Except.ok toks) :
    (_register command func kwargs).isOk = true ↔
      (placeholderNames toks).toFinset ∪ (kwargs.map Prod.fst).toFinset =
        func.params.toFinset := by
  rw [register_ok_iff command func kwargs toks hp, sameStrSet_iff, List.toFinset_append]
  exact eq_comm

/-- C5, witness: registering `take ITEM` against a handler with parameter
set containing exactly `item`. -/
theorem C5_signature_set_equality_witness :
    (_register "take ITEM" ⟨"take", ["item"]⟩ []).isOk = true ↔
      (placeholderNames [Token.lit "take", Token.placeholder "item"]).toFinset ∪
        (([] : List (String × PyValue)).map Prod.fst).toFinset =
        (["item"] : List String).toFinset :=
  C5_signature_set_equality "take ITEM" ⟨"take", ["item"]⟩ []
    [Token.lit "take", Token.placeholder "item"] rfl

/-- C6: after `add_direction a b` succeeds and the single assignment
`room1.a = room2` succeeds, `room2.exit(b)` is `room1` immediately: the
reciprocal write is part of the same `__setattr__` call, so the state in
which the assignment has returned already contains the reverse edge. -/
theorem C6_declare_then_set_reciprocal (w w1 w2 : World) (a b : String) (r1 r2 : Nat)
    (hd : add_direction w a b = Except.ok w1)
    (hs : setExit w1 r1 a r2 = Except.ok w2) :
    roomExit w2 r2 b = Except.ok (some r1) := by
  obtain ⟨ha, hb, hdirs, _⟩ := add_direction_ok w a b w1 hd
  obtain ⟨rev, hrev, hdirs2, hexits⟩ := setExit_ok w1 r1 a r2 w2 hs
  have hla : lookupDir w1.directions a = some b := by
    rw [hdirs, lookupDir_append_of_none _ _ _ ha]
    simp [lookupDir]
  have hrevb : rev = b := by
    rw [hla] at hrev
    injection hrev with hrev
    exact hrev.symm
  rw [hrevb] at hexits
  have hlb : (lookupDir w2.directions b).isNone = false := by
    rw [hdirs2, hdirs, lookupDir_append_of_none _ _ _ hb]
    by_cases hab : a = b
    · simp [lookupDir, hab]
    · simp [lookupDir, hab]
  unfold roomExit
  rw [hlb]
  simp only [Bool.false_eq_true, if_false]
  rw [hexits]
  simp [setRoomAttr]

/-- C6, witness: declare `up`/`down` in the empty world, set room 5's up
exit to room 7, and read room 7's down exit back as room 5. -/
theorem C6_declare_then_set_reciprocal_witness :
    roomExit
      (⟨[("up", "down"), ("down", "up")],
        setRoomAttr (setRoomAttr emptyWorld.exits 5 "up" 7) 7 "down" 5⟩ : World) 7 "down" =
      Except.ok (some 5) :=
  C6_declare_then_set_reciprocal emptyWorld
    ⟨[("up", "down"), ("down", "up")], emptyWorld.exits⟩
    ⟨[("up", "down"), ("down", "up")],
     setRoomAttr (setRoomAttr emptyWorld.exits 5 "up" 7) 7 "down" 5⟩
    "up" "down" 5 7 rfl rfl

/-- C7, counterexample: the claim that every item of a Bag copy is by
identity the same object as an item of the original is false.
`Room.__init__` copies class-level Bags with `copy.deepcopy`, which copies
the contained Items too: the copy of a one-item bag holds a fresh object
(id 1 here) that is not a member of the original (whose only item has
id 0). -/
theorem C7_same_identity_cex :
    deepcopyBag 1 [mkItem 0 "mallet" []] = [(⟨1, "mallet", ["mallet"]⟩ : Item)] ∧
    List.elem (⟨1, "mallet", ["mallet"]⟩ : Item) [mkItem 0 "mallet" []] = false := by
  exact ⟨rfl, rfl⟩

/-- C7, amended: copying a Bag yields an independent container whose
members are deep copies of the originals — same names and aliases in the
same arrangement, but fresh object identities; when the allocator bound is
above every id in the original, no member of the copy is (by identity) a
member of the original.  Mutating one container cannot affect the other,
the two being disjoint lists of distinct objects. -/
theorem C7_deepcopy_fresh_identities (fresh : Nat) (b : List Item) :
    ((deepcopyBag fresh b).map Item.name = b.map Item.name ∧
     (deepcopyBag fresh b).map Item.aliases = b.map Item.aliases) ∧
    (∀ it2 ∈ deepcopyBag fresh b, fresh ≤ it2.id) ∧
    ((∀ it ∈ b, it.id < fresh) → ∀ it2 ∈ deepcopyBag fresh b, it2 ∉ b) := by
  have hfields : ∀ (f : Nat) (l : List Item),
      (deepcopyBag f l).map Item.name = l.map Item.name ∧
      (deepcopyBag f l).map Item.aliases = l.map Item.aliases := by
    intro f l
    induction l generalizing f with
    | nil => exact ⟨rfl, rfl⟩
    | cons it rest ih =>
      obtain ⟨h1, h2⟩ := ih (f + 1)
      exact ⟨by simp [deepcopyBag, h1], by simp [deepcopyBag, h2]⟩
  have hid : ∀ (f : Nat) (l : List Item), ∀ it2 ∈ deepcopyBag f l, f ≤ it2.id := by
    intro f l
    induction l generalizing f with
    | nil =>
      intro it2 h
      simp [deepcopyBag] at h
    | cons it rest ih =>
      intro it2 h
      simp only [deepcopyBag, List.mem_cons] at h
      rcases h with h | h
      · subst h
        exact Nat.le_refl f
      · exact Nat.le_trans (Nat.le_succ f) (ih (f + 1) it2 h)
  refine ⟨hfields fresh b, hid fresh b, ?_⟩
  intro hlt it2 h2 hmem
  have ha := hid fresh b it2 h2
  have hb := hlt it2 hmem
  omega

/-- C7, witness: the fresh copy of the one-item bag is not a member of the
original bag. -/
theorem C7_deepcopy_fresh_identities_witness :
    (⟨1, "mallet", ["mallet"]⟩ : Item) ∉ [mkItem 0 "mallet" []] :=
  (C7_deepcopy_fresh_identities 1 [mkItem 0 "mallet" []]).2.2 (by decide)
    ⟨1, "mallet", ["mallet"]⟩ (by decide)

/-- C8: dispatch is order-sensitive — whenever a registered command
matches the input and every command registered before it fails to match,
that command's handler is invoked with its captured arguments, whatever
commands (however specific) are registered after it; scanning stops at the
first match. -/
theorem C8_first_match_wins (pre : List Cmd) (c : Cmd) (post : List Cmd)
    (ws : List String) (args : List (String × PyValue))
    (hpre : ∀ p ∈ pre, matchCmd p ws = none)
    (hc : matchCmd c ws = some args) :
    dispatch (pre ++ c :: post) ws = some (c.func, args) := by
  induction pre with
  | nil => simp [dispatch, hc]
  | cons p pre2 ih =>
    have hp : matchCmd p ws = none := hpre p (by simp)
    simp only [List.cons_append, dispatch, hp]
    exact ih (fun q hq => hpre q (by simp [hq]))

/-- C8, witness: with `look`, `go DIRECTION` and a second `go OTHER`
pattern registered in that order, input "go north" invokes the first `go`
handler, not the later one. -/
theorem C8_first_match_wins_witness :
    dispatch
        [⟨[Token.lit "look"], "look", []⟩,
         ⟨[Token.lit "go", Token.placeholder "direction"], "go", []⟩,
         ⟨[Token.lit "go", Token.placeholder "other"], "go2", []⟩]
        ["go", "north"] = some ("go", [("direction", PyValue.str "north")]) :=
  C8_first_match_wins [⟨[Token.lit "look"], "look", []⟩]
    ⟨[Token.lit "go", Token.placeholder "direction"], "go", []⟩
    [⟨[Token.lit "go", Token.placeholder "other"], "go2", []⟩]
    ["go", "north"] [("direction", PyValue.str "north")]
    (by decide) (by decide)

/-- C9 (code bug): assigning a room as an exit under a never-declared
direction does fail before touching any state — but the raised exception
is `NameError`, not `InvalidDirection`, because the class `InvalidDirection`
named by the `raise` at line 85 is defined nowhere in the module.  The
failure happens before either attribute write, so the all-or-nothing half
of the claim holds: no world state is produced or modified. -/
theorem C9_invalid_direction_name_error :
    (∀ (w : World) (room target : Nat) (d : String),
        lookupDir w.directions d = none →
        setExit w room d target = Except.error (PyErr.nameError "InvalidDirection")) ∧
    setExit initialWorld 0 "up" 1 = Except.error (PyErr.nameError "InvalidDirection") := by
  constructor
  · intro w room target d hl
    unfold setExit
    rw [hl]
  · rfl

/-- C9, witness: the general fact applied to the undeclared direction
"xyzzy" in the initial world. -/
theorem C9_invalid_direction_name_error_witness :
    setExit initialWorld 0 "xyzzy" 1 = Except.error (PyErr.nameError "InvalidDirection") :=
  C9_invalid_direction_name_error.1 initialWorld 0 1 "xyzzy" rfl

/-- C10: Bag text lookup is exact and case-sensitive — `contains` with a
string and `take` find an item exactly when the queried string equals one
of the item's aliases by string equality; `Item.__init__` stores the
aliases verbatim (never lowercased), so an item whose alias differs from
the query only in letter case is not found, as the "Apple"/"apple"
instance shows. -/
theorem C10_exact_case_sensitive_lookup :
    (∀ (b : List Item) (s : String),
        (bagContains b (BagQuery.str s) = Except.ok true ↔ ∃ it ∈ b, s ∈ it.aliases) ∧
        ((bagTake b s).1.isSome = true ↔ ∃ it ∈ b, s ∈ it.aliases)) ∧
    (∀ (id : Nat) (name : String) (aliases : List String),
        (mkItem id name aliases).aliases = name :: aliases) ∧
    bagContains [mkItem 0 "Apple" []] (BagQuery.str "apple") = Except.ok false := by
  refine ⟨fun b s => ⟨?_, ?_⟩, fun id name aliases => rfl, rfl⟩
  · rw [← bagFind_isSome]
    simp [bagContains]
  · rw [← bagFind_isSome]
    unfold bagTake
    cases h : bagFind b s <;> simp [h]
